import Mathlib

/-!
Verification of the `iiiExhibition-compass` repository: a browser compass
widget pointing an arrow from the current position toward a destination.
The repository holds four iterations of the same React component
(`direction-compass.tsx` and three unnamed near-duplicates).  Floating-point
numbers are modelled as real numbers (exact rationals where the code only
does list/parsing work), and the JavaScript `%` operator — a remainder that
takes the sign of the dividend — is modelled explicitly by `jsRem`.
-/

/-! ### JavaScript numeric primitives -/

/-- Truncation toward zero of a real number, as used by the JavaScript `%`
operator (`a % b = a - b * trunc (a / b)`). -/
noncomputable def rtrunc (x : ℝ) : ℤ := if 0 ≤ x then ⌊x⌋ else ⌈x⌉

/-- The JavaScript `%` operator on numbers: remainder carrying the sign of
the dividend, `a % b = a - b * trunc (a / b)`. -/
noncomputable def jsRem (a b : ℝ) : ℝ := a - b * rtrunc (a / b)

/-- Mathematical (flooring) modulus on the reals: the representative of
`a` modulo `b` lying in `[0, b)` for `b > 0`.  This is the reading of
`mod` used by the specification text. -/
noncomputable def fmod (a b : ℝ) : ℝ := b * Int.fract (a / b)

theorem fmod_eq_sub_floor (a b : ℝ) (hb : b ≠ 0) :
    fmod a b = a - b * ⌊a / b⌋ := by
  unfold fmod Int.fract
  field_simp

theorem jsRem_eq_fmod (a b : ℝ) (ha : 0 ≤ a) (hb : 0 < b) :
    jsRem a b = fmod a b := by
  have hq : 0 ≤ a / b := div_nonneg ha hb.le
  rw [fmod_eq_sub_floor a b (ne_of_gt hb)]
  unfold jsRem rtrunc
  rw [if_pos hq]

theorem fmod_nonneg (a b : ℝ) (hb : 0 < b) : 0 ≤ fmod a b :=
  mul_nonneg hb.le (Int.fract_nonneg _)

theorem fmod_lt (a b : ℝ) (hb : 0 < b) : fmod a b < b := by
  have h := Int.fract_lt_one (a / b)
  calc b * Int.fract (a / b) < b * 1 := by
        exact mul_lt_mul_of_pos_left h hb
    _ = b := mul_one b

theorem fmod_eq_self (a b : ℝ) (hb : 0 < b) (h0 : 0 ≤ a) (h1 : a < b) :
    fmod a b = a := by
  unfold fmod
  rw [Int.fract_eq_self.mpr ⟨div_nonneg h0 hb.le, by
    rw [div_lt_one hb]; exact h1⟩]
  field_simp

/-- `fmod` is invariant under shifting by integer multiples of the modulus. -/
theorem fmod_add_int_mul (a b : ℝ) (k : ℤ) (hb : b ≠ 0) :
    fmod (a + b * k) b = fmod a b := by
  unfold fmod
  have : (a + b * k) / b = a / b + k := by field_simp; ring
  rw [this, Int.fract_add_int]

theorem fmod_add_period (a b : ℝ) (hb : b ≠ 0) :
    fmod (a + b) b = fmod a b := by
  have := fmod_add_int_mul a b 1 hb
  simpa using this

/-- Reducing the left summand modulo `b` first does not change the result. -/
theorem fmod_fmod_add (a c b : ℝ) (hb : b ≠ 0) :
    fmod (fmod a b + c) b = fmod (a + c) b := by
  rw [fmod_eq_sub_floor a b hb]
  have : a - b * ⌊a / b⌋ + c = (a + c) + b * ((-⌊a / b⌋ : ℤ) : ℝ) := by
    simp
    ring
  rw [this, fmod_add_int_mul _ _ _ hb]

/-- Reducing the subtracted term modulo `b` first does not change the result. -/
theorem fmod_sub_fmod (c a b : ℝ) (hb : b ≠ 0) :
    fmod (c - fmod a b) b = fmod (c - a) b := by
  rw [fmod_eq_sub_floor a b hb]
  have : c - (a - b * ⌊a / b⌋) = (c - a) + b * (⌊a / b⌋ : ℤ) := by
    ring
  rw [this, fmod_add_int_mul _ _ _ hb]

/-! ### Geometry: the bearing calculator

Embedded from the `useEffect` computation shared verbatim by
`direction-compass.tsx` (lines 265–276), `part_000` (235–246),
`part_001` (59–71) and `part_002` (257–268). -/

/-- A latitude/longitude pair in degrees (`GeoPoint` of the data model). -/
structure Position where
  latitude : ℝ
  longitude : ℝ

/-- `toRadians` from the source: `degrees * (Math.PI / 180)`. -/
noncomputable def toRadians (degrees : ℝ) : ℝ := degrees * (Real.pi / 180)

/-- `toDegrees` from the source: `radians * (180 / Math.PI)`. -/
noncomputable def toDegrees (radians : ℝ) : ℝ := radians * (180 / Real.pi)

/-- JavaScript `Math.atan2 y x`: the argument of the complex number
`x + y·i`, valued in `(-π, π]`. -/
noncomputable def atan2 (y x : ℝ) : ℝ := Complex.arg ⟨x, y⟩

theorem atan2_le_pi (y x : ℝ) : atan2 y x ≤ Real.pi := Complex.arg_le_pi _

theorem neg_pi_lt_atan2 (y x : ℝ) : -Real.pi < atan2 y x := Complex.neg_pi_lt_arg _

/-- The bearing computed by the calculator `useEffect` (source lines
265–272 of `direction-compass.tsx`):
`y = sin(toRadians(destLon - curLon))`,
`x = cos(toRadians(curLat)) * tan(toRadians(destLat))
   - sin(toRadians(curLat)) * cos(toRadians(destLon - curLon))`,
`bearing = toDegrees(atan2 y x)`, then `(bearing + 360) % 360` with the
JavaScript `%`. -/
noncomputable def calcBearing (cur dest : Position) : ℝ :=
  jsRem (toDegrees (atan2
    (Real.sin (toRadians (dest.longitude - cur.longitude)))
    (Real.cos (toRadians cur.latitude) * Real.tan (toRadians dest.latitude) -
      Real.sin (toRadians cur.latitude) *
        Real.cos (toRadians (dest.longitude - cur.longitude)))) + 360) 360

/-- `relativeDirection` from the source (line 274 of
`direction-compass.tsx`): `(bearing - compass + 360) % 360` with the
JavaScript `%`. -/
noncomputable def relativeDirection (cur dest : Position) (heading : ℝ) : ℝ :=
  jsRem (calcBearing cur dest - heading + 360) 360

/-- The forward-azimuth formula exactly as the specification words it:
convert every angle to radians first, `Δλ = λ_dest − λ_cur`,
`y = sin Δλ`, `x = cos φ_cur · tan φ_dest − sin φ_cur · cos Δλ`,
`bearing = atan2(y, x)` converted back to degrees, normalized as
`(bearing + 360) mod 360` with the mathematical modulus. -/
noncomputable def bearingSpec (cur dest : Position) : ℝ :=
  fmod (toDegrees (atan2
    (Real.sin (toRadians dest.longitude - toRadians cur.longitude))
    (Real.cos (toRadians cur.latitude) * Real.tan (toRadians dest.latitude) -
      Real.sin (toRadians cur.latitude) *
        Real.cos (toRadians dest.longitude - toRadians cur.longitude))) + 360) 360

theorem toDegrees_atan2_gt (y x : ℝ) : -180 < toDegrees (atan2 y x) := by
  have hpi : 0 < Real.pi := Real.pi_pos
  have h := neg_pi_lt_atan2 y x
  have hpos : (0 : ℝ) < 180 / Real.pi := by positivity
  have := mul_lt_mul_of_pos_right h hpos
  unfold toDegrees
  have hval : -Real.pi * (180 / Real.pi) = -180 := by
    rw [neg_mul, ← mul_div_assoc]
    rw [mul_div_cancel_left₀ _ (ne_of_gt hpi)]
  linarith [hval ▸ this]

theorem calcBearing_nonneg_lt (cur dest : Position) :
    0 ≤ calcBearing cur dest ∧ calcBearing cur dest < 360 := by
  unfold calcBearing
  have h := toDegrees_atan2_gt
    (Real.sin (toRadians (dest.longitude - cur.longitude)))
    (Real.cos (toRadians cur.latitude) * Real.tan (toRadians dest.latitude) -
      Real.sin (toRadians cur.latitude) *
        Real.cos (toRadians (dest.longitude - cur.longitude)))
  set d := toDegrees (atan2
    (Real.sin (toRadians (dest.longitude - cur.longitude)))
    (Real.cos (toRadians cur.latitude) * Real.tan (toRadians dest.latitude) -
      Real.sin (toRadians cur.latitude) *
        Real.cos (toRadians (dest.longitude - cur.longitude)))) with hd
  have hpos : (0 : ℝ) ≤ d + 360 := by linarith
  rw [jsRem_eq_fmod _ _ hpos (by norm_num)]
  exact ⟨fmod_nonneg _ _ (by norm_num), fmod_lt _ _ (by norm_num)⟩

/-! ### Android alpha-to-compass conversions

The four iterations convert the raw `event.alpha` angle and the screen
orientation angle to a compass heading in different ways. -/

/-- `direction-compass.tsx` lines 100–109:
`heading = (alpha + screenOrientation) % 360` then
`heading = (360 - heading) % 360`. -/
noncomputable def androidHeadingMain (alpha screen : ℝ) : ℝ :=
  jsRem (360 - jsRem (alpha + screen) 360) 360

/-- `part_000` lines 86–88:
`heading = (360 - ((heading + screenAngle) % 360)) % 360`. -/
noncomputable def androidHeading000 (alpha screen : ℝ) : ℝ :=
  jsRem (360 - jsRem (alpha + screen) 360) 360

/-- First component of `part_002`, lines 125–126:
`heading = (360 - alpha) % 360` then
`heading = (heading + screenOrientation) % 360`. -/
noncomputable def androidHeading002A (alpha screen : ℝ) : ℝ :=
  jsRem (jsRem (360 - alpha) 360 + screen) 360

/-- The `switch (screenAngle)` correction of the second component of
`part_002` (lines 440–450): cases `90`, `-90`, `180`; any other angle
(including `270`) leaves the heading uncorrected. -/
noncomputable def switchCorrected (alpha screen : ℝ) : ℝ :=
  if screen = 90 then jsRem (alpha + 90) 360
  else if screen = -90 then jsRem (alpha - 90 + 360) 360
  else if screen = 180 then jsRem (alpha + 180) 360
  else alpha

/-- Second component of `part_002`, lines 440–453: switch-based
correction followed by `heading = (360 - heading) % 360`. -/
noncomputable def androidHeading002B (alpha screen : ℝ) : ℝ :=
  jsRem (360 - switchCorrected alpha screen) 360

/-- Canonical form of the tsx / `part_000` conversion on nonnegative
inputs: it is `-(alpha + screen)` reduced into `[0, 360)`. -/
theorem androidHeadingMain_canon (a s : ℝ) (ha : 0 ≤ a) (hs : 0 ≤ s) :
    androidHeadingMain a s = fmod (-(a + s)) 360 := by
  unfold androidHeadingMain
  rw [jsRem_eq_fmod (a + s) 360 (add_nonneg ha hs) (by norm_num)]
  have hlt := fmod_lt (a + s) 360 (by norm_num)
  have houter : (0 : ℝ) ≤ 360 - fmod (a + s) 360 := by linarith
  rw [jsRem_eq_fmod _ _ houter (by norm_num)]
  rw [fmod_sub_fmod _ _ _ (by norm_num)]
  have harg : 360 - (a + s) = -(a + s) + 360 := by ring
  rw [harg, fmod_add_period _ _ (by norm_num)]

/-- Canonical form of the `part_002` first-component conversion on
`0 ≤ alpha ≤ 360`, `0 ≤ screen`: it is `screen - alpha` reduced into
`[0, 360)`. -/
theorem androidHeading002A_canon (a s : ℝ) (ha1 : a ≤ 360)
    (hs : 0 ≤ s) : androidHeading002A a s = fmod (s - a) 360 := by
  unfold androidHeading002A
  rw [jsRem_eq_fmod (360 - a) 360 (by linarith) (by norm_num)]
  have h0 := fmod_nonneg (360 - a) 360 (by norm_num)
  rw [jsRem_eq_fmod _ _ (by linarith) (by norm_num)]
  rw [fmod_fmod_add _ _ _ (by norm_num)]
  have harg : 360 - a + s = s - a + 360 := by ring
  rw [harg, fmod_add_period _ _ (by norm_num)]

/-! ### Orientation handler state (Android branch) -/

/-- The slice of component state that the Android branch of
`handleOrientation` reads and writes: the `compass` heading and the
user-facing `error` message. -/
structure CompassState where
  compass : ℝ
  error : Option String

/-- Warning shown by `direction-compass.tsx` when the device is tilted
too far. -/
def levelWarningMain : String := "デバイスをより水平に保持してください"

/-- Warning shown by `part_000` when the device is tilted too far. -/
def levelWarning000 : String := "デバイスを水平に近づけてください"

/-- Android branch of `handleOrientation` in `direction-compass.tsx`
(lines 90–121): `beta = event.beta || 0`, `gamma = event.gamma || 0`;
if `|beta| > 50 || |gamma| > 50` set the warning and return (compass
untouched); otherwise set the converted heading and clear the error. -/
noncomputable def handleOrientationAndroidMain (st : CompassState) (alpha : ℝ)
    (beta gamma : Option ℝ) (screen : ℝ) : CompassState :=
  if 50 < |beta.getD 0| ∨ 50 < |gamma.getD 0| then
    { st with error := some levelWarningMain }
  else
    { compass := androidHeadingMain alpha screen, error := none }

/-- Android branch of `handleOrientation` in `part_000` (lines 74–97):
same shape with the relaxed tilt threshold `70`. -/
noncomputable def handleOrientationAndroid000 (st : CompassState) (alpha : ℝ)
    (beta gamma : Option ℝ) (screen : ℝ) : CompassState :=
  if 70 < |beta.getD 0| ∨ 70 < |gamma.getD 0| then
    { st with error := some levelWarning000 }
  else
    { compass := androidHeading000 alpha screen, error := none }

/-! ### The heading smoothing filter of `part_002`

Exact rational arithmetic stands in for the JavaScript doubles; the
filter buffer lives in `compassFilterRef` and is threaded explicitly. -/

/-- `applyCompassFilter` from `part_002` (lines 75–81): push the new
value, drop the oldest sample once the buffer holds more than 5, and
return the arithmetic mean of the buffer.  The returned pair is the
updated buffer together with the filtered value. -/
def applyCompassFilter (buf : List ℚ) (newValue : ℚ) : List ℚ × ℚ :=
  let pushed := buf ++ [newValue]
  let kept := if 5 < pushed.length then pushed.tail else pushed
  (kept, kept.sum / (kept.length : ℚ))

/-! ### Destination input parsing

`handleDestinationChange` splits the text-field value on commas, coerces
the first two components with the JavaScript `Number` function, and
keeps the previous destination when either coercion yields `NaN`. -/

/-- `String.split(',')` of JavaScript on a character list: every run
between commas becomes one component, and the list of components is
never empty. -/
def splitOnComma : List Char → List (List Char)
  | [] => [[]]
  | c :: rest =>
    let r := splitOnComma rest
    if c = ',' then [] :: r
    else (c :: r.headD []) :: r.tail

/-- A JavaScript number as far as `Number(string)` and `isNaN` can tell
them apart: `NaN`, the two infinities, or a finite value (modelled as an
exact rational). -/
inductive JSNum where
  | nan : JSNum
  | posInf : JSNum
  | negInf : JSNum
  | finite : ℚ → JSNum
deriving DecidableEq

/-- Negation of a JavaScript number, for the leading `-` sign. -/
def jsNeg : JSNum → JSNum
  | JSNum.nan => JSNum.nan
  | JSNum.posInf => JSNum.negInf
  | JSNum.negInf => JSNum.posInf
  | JSNum.finite q => JSNum.finite (-q)

/-- Value of a single digit character in any base up to 16. -/
def hexDigitVal (c : Char) : ℕ :=
  if c.isDigit then c.toNat - 48
  else if 'a' ≤ c ∧ c ≤ 'f' then c.toNat - 87
  else c.toNat - 55

/-- Numeric value of a run of digit characters, most significant first. -/
def digitsToNatBase (base : ℕ) (cs : List Char) : ℕ :=
  cs.foldl (fun acc c => acc * base + hexDigitVal c) 0

/-- Numeric value of a run of decimal digit characters. -/
def digitsToNat (cs : List Char) : ℕ := digitsToNatBase 10 cs

def isHexDigitChar (c : Char) : Bool :=
  c.isDigit || ('a' ≤ c && c ≤ 'f') || ('A' ≤ c && c ≤ 'F')

def isOctalDigitChar (c : Char) : Bool := '0' ≤ c && c ≤ '7'

def isBinaryDigitChar (c : Char) : Bool := c = '0' || c = '1'

/-- The optional `ExponentPart` that may close a decimal numeral:
nothing, or `e`/`E`, an optional sign and at least one digit.  `none`
models a malformed tail (hence `NaN` for the whole string). -/
def parseExponent : List Char → Option ℤ
  | [] => some 0
  | e :: rest =>
    if e = 'e' ∨ e = 'E' then
      match rest with
      | '-' :: ds =>
        if ds ≠ [] ∧ ds.all Char.isDigit then some (-(digitsToNat ds : ℤ)) else none
      | '+' :: ds =>
        if ds ≠ [] ∧ ds.all Char.isDigit then some (digitsToNat ds : ℤ) else none
      | ds =>
        if ds ≠ [] ∧ ds.all Char.isDigit then some (digitsToNat ds : ℤ) else none
    else none

/-- `StrUnsignedDecimalLiteral` of the `Number` coercion: the literal
`Infinity`, or decimal digits with an optional point, fraction digits
and exponent (at least one digit overall).  Anything else is `NaN`. -/
def jsNumberCore (cs : List Char) : JSNum :=
  if cs = ['I', 'n', 'f', 'i', 'n', 'i', 't', 'y'] then JSNum.posInf
  else
    let ip := cs.takeWhile Char.isDigit
    let rest := cs.dropWhile Char.isDigit
    match rest with
    | [] => if ip.isEmpty then JSNum.nan else JSNum.finite (digitsToNat ip : ℚ)
    | c :: rest2 =>
      if c = '.' then
        let frac := rest2.takeWhile Char.isDigit
        let rest3 := rest2.dropWhile Char.isDigit
        if ip.isEmpty ∧ frac.isEmpty then JSNum.nan
        else
          match parseExponent rest3 with
          | some e =>
            JSNum.finite (((digitsToNat ip : ℚ) +
              (digitsToNat frac : ℚ) / (10 : ℚ) ^ frac.length) * (10 : ℚ) ^ e)
          | none => JSNum.nan
      else
        if ip.isEmpty then JSNum.nan
        else
          match parseExponent rest with
          | some e => JSNum.finite ((digitsToNat ip : ℚ) * (10 : ℚ) ^ e)
          | none => JSNum.nan

/-- `NonDecimalIntegerLiteral`: `0x`/`0X`, `0o`/`0O` or `0b`/`0B`
followed by digits of the base.  These forms admit no sign and no
exponent; a malformed tail (as in `0x1G`) is `NaN`, and `none` means
the string is not of this shape at all and parses as decimal. -/
def jsNumberNonDecimal (cs : List Char) : Option JSNum :=
  match cs with
  | '0' :: x :: ds =>
    if x = 'x' ∨ x = 'X' then
      if ds ≠ [] ∧ ds.all isHexDigitChar then
        some (JSNum.finite (digitsToNatBase 16 ds : ℚ))
      else some JSNum.nan
    else if x = 'o' ∨ x = 'O' then
      if ds ≠ [] ∧ ds.all isOctalDigitChar then
        some (JSNum.finite (digitsToNatBase 8 ds : ℚ))
      else some JSNum.nan
    else if x = 'b' ∨ x = 'B' then
      if ds ≠ [] ∧ ds.all isBinaryDigitChar then
        some (JSNum.finite (digitsToNatBase 2 ds : ℚ))
      else some JSNum.nan
    else none
  | _ => none

/-- `StrNumericLiteral`: an optional sign in front of the unsigned
decimal literal (signs are not allowed on the non-decimal forms, so
`-0x10` is `NaN`), or an unsigned non-decimal integer literal. -/
def jsNumberSigned (cs : List Char) : JSNum :=
  match cs with
  | '-' :: rest => jsNeg (jsNumberCore rest)
  | '+' :: rest => jsNumberCore rest
  | _ =>
    match jsNumberNonDecimal cs with
    | some v => v
    | none => jsNumberCore cs

/-- The JavaScript `Number` string coercion (ECMA-262
`StringNumericLiteral`): surrounding whitespace is ignored, the empty
string coerces to `0`, and the string must be an optionally signed
decimal numeral (with optional fraction and exponent), `Infinity`, or
an unsigned hex/octal/binary integer literal — anything else is `NaN`. -/
def jsNumber (cs : List Char) : JSNum :=
  let t := ((cs.dropWhile Char.isWhitespace).reverse.dropWhile
      Char.isWhitespace).reverse
  if t.isEmpty then JSNum.finite 0 else jsNumberSigned t

/-- The latitude parse result of a destination input string:
JavaScript `Number` applied to the first comma-separated component. -/
def parsedLat (s : String) : JSNum :=
  jsNumber ((splitOnComma s.toList).headD [])

/-- The longitude parse result: JavaScript `Number` applied to the
second comma-separated component when it exists; destructuring a
shorter array yields `undefined`, which `isNaN` treats as `NaN`. -/
def parsedLon (s : String) : JSNum :=
  match splitOnComma s.toList with
  | _ :: l :: _ => jsNumber l
  | _ => JSNum.nan

/-- The slice of component state read and written by
`handleDestinationChange`: the destination pair and the error message. -/
structure DestState where
  destination : JSNum × JSNum
  error : Option String

/-- Warning shown when a coordinate fails to parse. -/
def invalidCoordMsg : String := "無効な座標が入力されました。"

/-- `handleDestinationChange` from `direction-compass.tsx` (lines
278–293): `const [lat, lon] = e.target.value.split(',').map(Number)`;
when `!isNaN(lat) && !isNaN(lon)` the destination becomes `(lat, lon)`
and the error clears, otherwise the destination is retained and the
warning surfaces. -/
def handleDestinationChange (st : DestState) (input : String) : DestState :=
  if parsedLat input ≠ JSNum.nan ∧ parsedLon input ≠ JSNum.nan then
    { destination := (parsedLat input, parsedLon input), error := none }
  else
    { st with error := some invalidCoordMsg }

/-! ### Concrete evaluation helpers -/

theorem atan2_zero_zero : atan2 0 0 = 0 := by
  unfold atan2
  have h : (⟨0, 0⟩ : ℂ) = 0 := by
    apply Complex.ext <;> simp
  rw [h, Complex.arg_zero]

theorem toRadians_zero : toRadians 0 = 0 := by
  unfold toRadians
  ring

theorem toDegrees_zero : toDegrees 0 = 0 := by
  unfold toDegrees
  ring

theorem jsRem_360_360 : jsRem 360 360 = 0 := by
  unfold jsRem rtrunc
  rw [if_pos (by norm_num : (0 : ℝ) ≤ 360 / 360)]
  norm_num

theorem jsRem_neg440 : jsRem (-440) 360 = -80 := by
  unfold jsRem rtrunc
  rw [if_neg (by norm_num : ¬ (0 : ℝ) ≤ -440 / 360)]
  have h : ⌈(-440 : ℝ) / 360⌉ = -1 := by
    apply Int.ceil_eq_iff.mpr
    constructor <;> norm_num
  rw [h]
  norm_num

theorem fmod_neg800 : fmod (-800) 360 = 280 := by
  rw [fmod_eq_sub_floor _ _ (by norm_num : (360 : ℝ) ≠ 0)]
  have h : ⌊(-800 : ℝ) / 360⌋ = -3 := by
    apply Int.floor_eq_iff.mpr
    constructor <;> norm_num
  rw [h]
  norm_num

theorem fmod_neg90 : fmod (-90) 360 = 270 := by
  rw [fmod_eq_sub_floor _ _ (by norm_num : (360 : ℝ) ≠ 0)]
  have h : ⌊(-90 : ℝ) / 360⌋ = -1 := by
    apply Int.floor_eq_iff.mpr
    constructor <;> norm_num
  rw [h]
  norm_num

/-- On coincident current and destination points with non-degenerate
latitude, the whole calculation collapses: `y = 0`, `x = 0`,
`atan2 0 0 = 0`, bearing `0`, so the relative direction is
`(360 - heading) % 360` with the JavaScript `%`. -/
theorem relativeDirection_coincident_aux (p : Position) (heading : ℝ)
    (hlo : -90 < p.latitude) (hhi : p.latitude < 90) :
    relativeDirection p p heading = jsRem (360 - heading) 360 := by
  have hp : (0 : ℝ) < Real.pi / 180 := by positivity
  have h1 : -(Real.pi / 2) < toRadians p.latitude := by
    unfold toRadians
    have h := mul_lt_mul_of_pos_right hlo hp
    calc -(Real.pi / 2) = -90 * (Real.pi / 180) := by ring
      _ < p.latitude * (Real.pi / 180) := h
  have h2 : toRadians p.latitude < Real.pi / 2 := by
    unfold toRadians
    have h := mul_lt_mul_of_pos_right hhi hp
    calc p.latitude * (Real.pi / 180) < 90 * (Real.pi / 180) := h
      _ = Real.pi / 2 := by ring
  have hcos : Real.cos (toRadians p.latitude) ≠ 0 :=
    ne_of_gt (Real.cos_pos_of_mem_Ioo ⟨h1, h2⟩)
  have hy : Real.sin (toRadians (p.longitude - p.longitude)) = 0 := by
    rw [sub_self, toRadians_zero, Real.sin_zero]
  have hx : Real.cos (toRadians p.latitude) * Real.tan (toRadians p.latitude) -
      Real.sin (toRadians p.latitude) *
        Real.cos (toRadians (p.longitude - p.longitude)) = 0 := by
    rw [sub_self, toRadians_zero, Real.cos_zero, Real.tan_eq_sin_div_cos,
      ← mul_div_assoc, mul_comm, mul_div_assoc, div_self hcos, mul_one, sub_self]
  unfold relativeDirection calcBearing
  rw [hy, hx, atan2_zero_zero, toDegrees_zero, zero_add, jsRem_360_360]
  congr 1
  ring

/-! ## Claim theorems -/

/-- Claim C1: for every current position and destination, the bearing
computed by the calculator equals the forward-azimuth formula of the
specification — angles converted to radians, `y = sin(Δλ)`,
`x = cos(φ_cur)·tan(φ_dest) − sin(φ_cur)·cos(Δλ)`,
`bearing = atan2(y, x)` in degrees, normalized as
`(bearing + 360) mod 360`. -/
theorem calcBearing_eq_spec (cur dest : Position) :
    calcBearing cur dest = bearingSpec cur dest := by
  have key : ∀ y x : ℝ, jsRem (toDegrees (atan2 y x) + 360) 360
      = fmod (toDegrees (atan2 y x) + 360) 360 := by
    intro y x
    have h := toDegrees_atan2_gt y x
    exact jsRem_eq_fmod _ _ (by linarith) (by norm_num)
  unfold calcBearing bearingSpec
  have harg : toRadians dest.longitude - toRadians cur.longitude
      = toRadians (dest.longitude - cur.longitude) := by
    unfold toRadians
    ring
  rw [harg, key]

/-- Claim C2, counterexample: at current = destination = (0, 0) and
heading 800 (a finite heading value), the code computes
`(0 - 800 + 360) % 360 = -80` with the sign-of-dividend JavaScript `%`,
which is negative, hence not in `[0, 360)` and different from the
mathematical `(bearing - heading + 360) mod 360 = 280`. -/
theorem relativeDirection_range_cex :
    relativeDirection ⟨0, 0⟩ ⟨0, 0⟩ 800 = -80 ∧
    ¬ (0 ≤ relativeDirection ⟨0, 0⟩ ⟨0, 0⟩ 800 ∧
        relativeDirection ⟨0, 0⟩ ⟨0, 0⟩ 800 < 360) := by
  have h := relativeDirection_coincident_aux ⟨0, 0⟩ 800 (by norm_num) (by norm_num)
  rw [show (360 : ℝ) - 800 = -440 from by norm_num, jsRem_neg440] at h
  refine ⟨h, ?_⟩
  rw [h]
  norm_num

/-- Claim C2, amended: for every current position and destination and
every heading in `[0, 360)` — the range the compass state actually
takes — the computed relative direction equals
`(bearing − heading + 360) mod 360` (mathematical modulus) and lies in
`[0, 360)`. -/
theorem relativeDirection_range (cur dest : Position) (heading : ℝ)
    (h0 : 0 ≤ heading) (h1 : heading < 360) :
    relativeDirection cur dest heading
        = fmod (calcBearing cur dest - heading + 360) 360 ∧
      0 ≤ relativeDirection cur dest heading ∧
      relativeDirection cur dest heading < 360 := by
  obtain ⟨hb0, hb1⟩ := calcBearing_nonneg_lt cur dest
  have hpos : (0 : ℝ) ≤ calcBearing cur dest - heading + 360 := by linarith
  unfold relativeDirection
  rw [jsRem_eq_fmod _ _ hpos (by norm_num)]
  exact ⟨rfl, fmod_nonneg _ _ (by norm_num), fmod_lt _ _ (by norm_num)⟩

/-- Witness for the amended C2 at current = destination = (0, 0),
heading 90. -/
theorem relativeDirection_range_witness :
    relativeDirection ⟨0, 0⟩ ⟨0, 0⟩ 90
        = fmod (calcBearing ⟨0, 0⟩ ⟨0, 0⟩ - 90 + 360) 360 ∧
      0 ≤ relativeDirection ⟨0, 0⟩ ⟨0, 0⟩ 90 ∧
      relativeDirection ⟨0, 0⟩ ⟨0, 0⟩ 90 < 360 :=
  relativeDirection_range ⟨0, 0⟩ ⟨0, 0⟩ 90 (by norm_num) (by norm_num)

/-- Claim C3, counterexample: with positions fixed at (0, 0) and
heading shifted from 0 by Δ = 800, the code yields `-80` while
`(r − Δ) mod 360 = 280`, so the claimed shift law fails for arbitrary
shifts under the JavaScript `%`. -/
theorem relativeDirection_shift_cex :
    relativeDirection ⟨0, 0⟩ ⟨0, 0⟩ (0 + 800) = -80 ∧
    fmod (relativeDirection ⟨0, 0⟩ ⟨0, 0⟩ 0 - 800) 360 = 280 := by
  have ha := relativeDirection_coincident_aux ⟨0, 0⟩ (0 + 800) (by norm_num) (by norm_num)
  have hb := relativeDirection_coincident_aux ⟨0, 0⟩ 0 (by norm_num) (by norm_num)
  rw [show (360 : ℝ) - (0 + 800) = -440 from by norm_num, jsRem_neg440] at ha
  rw [show (360 : ℝ) - 0 = 360 from by norm_num, jsRem_360_360] at hb
  refine ⟨ha, ?_⟩
  rw [hb, show (0 : ℝ) - 800 = -800 from by norm_num, fmod_neg800]

/-- Claim C3, amended: holding the positions fixed, replacing a heading
`h` by `h + Δ` changes the relative direction from `r` to
`(r − Δ) mod 360`, provided both `h` and `h + Δ` lie in `[0, 360)` (the
range the compass state actually takes). -/
theorem relativeDirection_heading_shift (cur dest : Position) (h Δ : ℝ)
    (hh0 : 0 ≤ h) (hh1 : h < 360) (hs0 : 0 ≤ h + Δ) (hs1 : h + Δ < 360) :
    relativeDirection cur dest (h + Δ)
      = fmod (relativeDirection cur dest h - Δ) 360 := by
  obtain ⟨hb0, hb1⟩ := calcBearing_nonneg_lt cur dest
  unfold relativeDirection
  rw [jsRem_eq_fmod (calcBearing cur dest - h + 360) 360 (by linarith) (by norm_num)]
  rw [jsRem_eq_fmod _ _ (by linarith) (by norm_num)]
  rw [sub_eq_add_neg (fmod _ _) Δ, fmod_fmod_add _ _ _ (by norm_num)]
  congr 1
  ring

/-- Witness for the amended C3 at positions (0, 0), heading 30,
shift 60. -/
theorem relativeDirection_heading_shift_witness :
    relativeDirection ⟨0, 0⟩ ⟨0, 0⟩ (30 + 60)
      = fmod (relativeDirection ⟨0, 0⟩ ⟨0, 0⟩ 30 - 60) 360 :=
  relativeDirection_heading_shift ⟨0, 0⟩ ⟨0, 0⟩ 30 60
    (by norm_num) (by norm_num) (by norm_num) (by norm_num)

/-- Claim C4: when either parsed component of the destination input is
`NaN`, `handleDestinationChange` keeps the previous destination and
surfaces the warning; when the first two comma-separated components
both parse to numbers (anything non-`NaN`, including scientific, hex
and `Infinity` forms) it sets the destination to exactly those two
parsed values and clears the error. -/
theorem handleDestinationChange_spec (st : DestState) (input : String) :
    (parsedLat input = JSNum.nan ∨ parsedLon input = JSNum.nan →
      (handleDestinationChange st input).destination = st.destination ∧
      (handleDestinationChange st input).error = some invalidCoordMsg) ∧
    (parsedLat input ≠ JSNum.nan → parsedLon input ≠ JSNum.nan →
      (handleDestinationChange st input).destination
          = (parsedLat input, parsedLon input) ∧
      (handleDestinationChange st input).error = none) := by
  by_cases h : parsedLat input ≠ JSNum.nan ∧ parsedLon input ≠ JSNum.nan
  · constructor
    · rintro (h1 | h1)
      · exact absurd h1 h.1
      · exact absurd h1 h.2
    · intro _ _
      unfold handleDestinationChange
      rw [if_pos h]
      exact ⟨rfl, rfl⟩
  · constructor
    · intro _
      unfold handleDestinationChange
      rw [if_neg h]
      exact ⟨rfl, rfl⟩
    · intro h1 h2
      exact absurd ⟨h1, h2⟩ h

/-- Witness for C4: "abc" has a non-numeric latitude and is rejected
with the prior destination retained; "35,139" parses and sets the
destination to (35, 139); "1e5,0x10" exercises the scientific and hex
`Number` forms and sets the destination to (100000, 16). -/
theorem handleDestinationChange_witness :
    (handleDestinationChange ⟨(JSNum.finite 1, JSNum.finite 2), none⟩
        "abc").destination = (JSNum.finite 1, JSNum.finite 2) ∧
    (handleDestinationChange ⟨(JSNum.finite 1, JSNum.finite 2), none⟩
        "35,139").destination = (JSNum.finite 35, JSNum.finite 139) ∧
    (handleDestinationChange ⟨(JSNum.finite 1, JSNum.finite 2), none⟩
        "1e5,0x10").destination = (JSNum.finite 100000, JSNum.finite 16) := by
  refine ⟨((handleDestinationChange_spec ⟨(JSNum.finite 1, JSNum.finite 2), none⟩
    "abc").1 (Or.inl rfl)).1, ?_, ?_⟩
  · have h := (handleDestinationChange_spec ⟨(JSNum.finite 1, JSNum.finite 2), none⟩
      "35,139").2 (by decide) (by decide)
    exact h.1.trans rfl
  · have h := (handleDestinationChange_spec ⟨(JSNum.finite 1, JSNum.finite 2), none⟩
      "1e5,0x10").2 (by decide) (by decide)
    have hval : (parsedLat "1e5,0x10", parsedLon "1e5,0x10")
        = (JSNum.finite 100000, JSNum.finite 16) := by
      have hlat : parsedLat "1e5,0x10"
          = JSNum.finite ((1 : ℚ) * (10 : ℚ) ^ ((5 : ℕ) : ℤ)) := rfl
      have hlon : parsedLon "1e5,0x10" = JSNum.finite 16 := by decide
      rw [hlat, hlon]
      norm_num [zpow_natCast]
    exact h.1.trans hval

/-- Claim C5: when the current position equals the destination and the
shared latitude lies strictly between -90 and 90 degrees, the
calculation does not fail: the relative direction is the well-defined
real number `(360 - heading) % 360` (the `y = 0`, `x = 0`,
`atan2(0,0) = 0` degenerate branch), not `NaN`. -/
theorem relativeDirection_coincident (p : Position) (heading : ℝ)
    (hlo : -90 < p.latitude) (hhi : p.latitude < 90) :
    relativeDirection p p heading = jsRem (360 - heading) 360 :=
  relativeDirection_coincident_aux p heading hlo hhi

/-- Witness for C5 at the coincident point (0, 0) with heading 45. -/
theorem relativeDirection_coincident_witness :
    relativeDirection ⟨0, 0⟩ ⟨0, 0⟩ 45 = jsRem (360 - 45) 360 :=
  relativeDirection_coincident ⟨0, 0⟩ 45 (by norm_num) (by norm_num)

/-- Claim C6: in the Android branch of `handleOrientation`, a tilt
sample with `|beta|` or `|gamma|` above the threshold (50° in
`direction-compass.tsx`, 70° in `part_000`) surfaces the
level-the-device warning and leaves the compass state unchanged. -/
theorem handleOrientation_tilt_guard (st : CompassState) (alpha : ℝ)
    (beta gamma : Option ℝ) (screen : ℝ) :
    (50 < |beta.getD 0| ∨ 50 < |gamma.getD 0| →
      (handleOrientationAndroidMain st alpha beta gamma screen).compass = st.compass ∧
      (handleOrientationAndroidMain st alpha beta gamma screen).error
        = some levelWarningMain) ∧
    (70 < |beta.getD 0| ∨ 70 < |gamma.getD 0| →
      (handleOrientationAndroid000 st alpha beta gamma screen).compass = st.compass ∧
      (handleOrientationAndroid000 st alpha beta gamma screen).error
        = some levelWarning000) := by
  constructor
  · intro h
    unfold handleOrientationAndroidMain
    rw [if_pos h]
    exact ⟨rfl, rfl⟩
  · intro h
    unfold handleOrientationAndroid000
    rw [if_pos h]
    exact ⟨rfl, rfl⟩

/-- Witness for C6: a sample with `beta = 80` (past both thresholds)
leaves the prior compass value 123 untouched in both iterations. -/
theorem handleOrientation_tilt_guard_witness :
    (handleOrientationAndroidMain ⟨123, none⟩ 10 (some 80) none 0).compass = 123 ∧
    (handleOrientationAndroid000 ⟨123, none⟩ 10 (some 80) none 0).compass = 123 := by
  have h := handleOrientation_tilt_guard ⟨123, none⟩ 10 (some 80) none 0
  exact ⟨(h.1 (Or.inl (by norm_num [Option.getD]))).1,
    (h.2 (Or.inl (by norm_num [Option.getD]))).1⟩

/-- Claim C7: starting from a buffer of at most 5 samples,
`applyCompassFilter` appends the new sample, retains only the most
recent at-most-5 samples, and returns their arithmetic mean. -/
theorem applyCompassFilter_spec (buf : List ℚ) (v : ℚ) (hlen : buf.length ≤ 5) :
    (applyCompassFilter buf v).1.length ≤ 5 ∧
    (applyCompassFilter buf v).1
      = (buf ++ [v]).drop ((buf ++ [v]).length - 5) ∧
    (applyCompassFilter buf v).2
      = (applyCompassFilter buf v).1.sum / ((applyCompassFilter buf v).1.length : ℚ) := by
  simp only [applyCompassFilter]
  by_cases h : 5 < (buf ++ [v]).length
  · have hlen6 : (buf ++ [v]).length = 6 := by
      simp only [List.length_append, List.length_singleton] at h ⊢
      omega
    rw [if_pos h]
    refine ⟨?_, ?_, trivial⟩
    · rw [List.length_tail, hlen6]
    · rw [hlen6, ← List.drop_one]
  · rw [if_neg h]
    push_neg at h
    refine ⟨h, ?_, trivial⟩
    have hz : (buf ++ [v]).length - 5 = 0 := by omega
    rw [hz, List.drop_zero]

/-- Witness for C7 with a full 5-sample buffer: the oldest sample 350
is dropped and the mean of the retained 5 is returned. -/
theorem applyCompassFilter_spec_witness :
    (applyCompassFilter [350, 355, 0, 5, 10] 30).1.length ≤ 5 ∧
    (applyCompassFilter [350, 355, 0, 5, 10] 30).1
      = (([350, 355, 0, 5, 10] : List ℚ) ++ [30]).drop
          ((([350, 355, 0, 5, 10] : List ℚ) ++ [30]).length - 5) ∧
    (applyCompassFilter [350, 355, 0, 5, 10] 30).2
      = (applyCompassFilter [350, 355, 0, 5, 10] 30).1.sum
        / ((applyCompassFilter [350, 355, 0, 5, 10] 30).1.length : ℚ) :=
  applyCompassFilter_spec [350, 355, 0, 5, 10] 30 (by simp)

/-- Claim C8, counterexample: at `alpha = 0`, `screen = 90`, the
tsx / `part_000` conversion yields 270 while the inversion-then-offset
conversion of `part_002`'s first component yields 90, so the claimed
equality of all the conversions fails. -/
theorem androidHeading_versions_cex :
    androidHeadingMain 0 90 = 270 ∧ androidHeading002A 0 90 = 90 ∧
    androidHeadingMain 0 90 ≠ androidHeading002A 0 90 := by
  have h1 : androidHeadingMain 0 90 = 270 := by
    rw [androidHeadingMain_canon 0 90 le_rfl (by norm_num)]
    rw [show -((0 : ℝ) + 90) = -90 from by norm_num, fmod_neg90]
  have h2 : androidHeading002A 0 90 = 90 := by
    rw [androidHeading002A_canon 0 90 (by norm_num) (by norm_num)]
    rw [show (90 : ℝ) - 0 = 90 from by norm_num]
    exact fmod_eq_self 90 360 (by norm_num) (by norm_num) (by norm_num)
  refine ⟨h1, h2, ?_⟩
  rw [h1, h2]
  norm_num

/-- Claim C8, amended: for `alpha ∈ [0, 360)` the tsx and `part_000`
conversions are identical everywhere; the switch-based conversion of
`part_002`'s second component agrees with them for screen angles 0, 90
and 180 (at 270 it applies no correction); the inversion-then-offset
conversion of `part_002`'s first component agrees with them only for
screen angles 0 and 180. -/
theorem androidHeading_versions_agree (a s : ℝ) (ha0 : 0 ≤ a) (ha1 : a < 360) :
    androidHeadingMain a s = androidHeading000 a s ∧
    (s = 0 ∨ s = 90 ∨ s = 180 → androidHeading002B a s = androidHeadingMain a s) ∧
    (s = 0 ∨ s = 180 → androidHeading002A a s = androidHeadingMain a s) := by
  refine ⟨rfl, ?_, ?_⟩
  · rintro (rfl | rfl | rfl)
    · unfold androidHeading002B switchCorrected
      rw [if_neg (by norm_num), if_neg (by norm_num), if_neg (by norm_num)]
      rw [androidHeadingMain_canon a 0 ha0 le_rfl]
      rw [jsRem_eq_fmod _ _ (by linarith) (by norm_num)]
      rw [show (360 : ℝ) - a = -(a + 0) + 360 from by ring,
        fmod_add_period _ _ (by norm_num)]
    · unfold androidHeading002B switchCorrected androidHeadingMain
      rw [if_pos rfl]
    · unfold androidHeading002B switchCorrected androidHeadingMain
      rw [if_neg (by norm_num), if_neg (by norm_num), if_pos rfl]
  · rintro (rfl | rfl)
    · rw [androidHeading002A_canon a 0 (by linarith) le_rfl,
        androidHeadingMain_canon a 0 ha0 le_rfl]
      congr 1
      ring
    · rw [androidHeading002A_canon a 180 (by linarith) (by norm_num),
        androidHeadingMain_canon a 180 ha0 (by norm_num)]
      rw [show -(a + 180) = (180 - a) + 360 * ((-1 : ℤ) : ℝ) from by push_cast; ring,
        fmod_add_int_mul _ _ _ (by norm_num)]

/-- Witness for the amended C8 at `alpha = 10`, `screen = 180`. -/
theorem androidHeading_versions_agree_witness :
    androidHeadingMain 10 180 = androidHeading000 10 180 ∧
    androidHeading002B 10 180 = androidHeadingMain 10 180 ∧
    androidHeading002A 10 180 = androidHeadingMain 10 180 := by
  have h := androidHeading_versions_agree 10 180 (by norm_num) (by norm_num)
  exact ⟨h.1, h.2.1 (Or.inr (Or.inr rfl)), h.2.2 (Or.inr rfl)⟩

/-- Claim C9: the smoothing filter averages arithmetically with no
wrap-around treatment: feeding 359 and then 1 into an empty filter
returns 180, roughly opposite to both samples. -/
theorem applyCompassFilter_wraparound :
    (applyCompassFilter (applyCompassFilter [] 359).1 1).2 = 180 := by
  norm_num [applyCompassFilter]

/-- Claim C10: the relative-direction computation is a deterministic
pure function of the current position, the destination and the heading:
identical inputs always produce identical outputs. -/
theorem relativeDirection_deterministic (c₁ c₂ d₁ d₂ : Position) (h₁ h₂ : ℝ)
    (hc : c₁ = c₂) (hd : d₁ = d₂) (hh : h₁ = h₂) :
    relativeDirection c₁ d₁ h₁ = relativeDirection c₂ d₂ h₂ := by
  rw [hc, hd, hh]

/-- Witness for C10 at a concrete triple of inputs. -/
theorem relativeDirection_deterministic_witness :
    relativeDirection ⟨1, 2⟩ ⟨3, 4⟩ 5 = relativeDirection ⟨1, 2⟩ ⟨3, 4⟩ 5 :=
  relativeDirection_deterministic ⟨1, 2⟩ ⟨1, 2⟩ ⟨3, 4⟩ ⟨3, 4⟩ 5 5 rfl rfl rfl
